import Mathlib

/-!
Verification of the schema-driven resource-instance validator
(`scripts/validate_resource_instances.py`).

The embedding below translates the validator's pure core:

* the type grammar parser (`parse_type`) and its `StatType` descriptor,
* the schema compiler (`parse_stats_file` over the lines of a `stats.rpgs`
  source, with the `BASE_STAT_PATTERN` regex embedded as `matchBaseStat`),
* the recursive validation engine (`validate_resource_instance` /
  `validate_value`, with the per-statistic loop and the array-element loop
  as the further tasks `validate_stats` / `validate_elements`).

Decoded JSON documents are modelled by the mutually inductive `JValue` /
`JArr` / `JObj` (Python's `None`/`bool`/`int`/`float`/`str`/`list`/`dict` as
produced by `json.loads`); an object is an insertion-ordered sequence of
key-value entries with unique keys, with `jget` as `dict.get`.  The
imperative error accumulation (`errors.append`) is translated by explicit
state passing: each validation function takes the current error list and
returns the extended one.  The `file_path`/`repo_root` arguments of the
source's `add_error` only prefix the rendered message with a display path
and are dropped; an error is kept as its (path_stack, message) pair.
-/

namespace RpgValidate

/-! ### Type grammar parser -/

/-- Type descriptor for one statistic (the source's `StatType` dataclass:
`kind`, `is_array`, `resource_type`). -/
structure StatType where
  kind : String
  is_array : Bool
  resource_type : Option String := none
deriving DecidableEq, Repr

/-- The source's `StatType.element_type`: same kind and resource constraint,
array flag cleared; a fresh value, the receiver is untouched. -/
def StatType.element_type (t : StatType) : StatType :=
  StatType.mk t.kind false t.resource_type

/-- Whether the first list is a prefix of the second (character-exact). -/
def charsPrefix : List Char → List Char → Bool
  | [], _ => true
  | _ :: _, [] => false
  | p :: ps, c :: cs => p == c && charsPrefix ps cs

/-- Python `s.startswith(p)`. -/
def pyStartsWith (s p : String) : Bool :=
  charsPrefix p.data s.data

/-- Python `s.endswith(p)`. -/
def pyEndsWith (s p : String) : Bool :=
  charsPrefix p.data.reverse s.data.reverse

/-- Python `s[n:]` (drop the first `n` characters). -/
def pyDrop (s : String) (n : Nat) : String :=
  String.mk (s.data.drop n)

/-- Python `s[:-n]` for `n ≤ len(s)` (drop the last `n` characters). -/
def pyDropRight (s : String) (n : Nat) : String :=
  String.mk (s.data.take (s.data.length - n))

/-- The source's `parse_type`: strip a trailing `[]`, then classify the core
token (`resource<X>`, `resource`, one of the primitive names, else
`unknown`). -/
def parse_type (type_token : String) : StatType :=
  let is_array := pyEndsWith type_token "[]"
  let core := if is_array then pyDropRight type_token 2 else type_token
  if pyStartsWith core "resource<" ∧ pyEndsWith core ">" then
    StatType.mk "resource" is_array (some (pyDropRight (pyDrop core 9) 1))
  else if core = "resource" then
    StatType.mk "resource" is_array none
  else if core = "string" ∨ core = "bool" ∨ core = "integer" ∨ core = "photo" then
    StatType.mk core is_array none
  else
    StatType.mk "unknown" is_array none

/-! ### Schema compiler -/

/-- Python's `\s` over the characters the validator meets (the ASCII
whitespace class used by `str.strip` and the regex). -/
def isPySpace (c : Char) : Bool :=
  c == ' ' || c == '\t' || c == '\n' || c == '\r' || c == '\x0b' || c == '\x0c'

/-- The character class `[A-Za-z0-9_]` of `BASE_STAT_PATTERN`. -/
def isWordChar (c : Char) : Bool :=
  ('A' ≤ c && c ≤ 'Z') || ('a' ≤ c && c ≤ 'z') || ('0' ≤ c && c ≤ '9') || c == '_'

/-- Python's `str.strip()`: drop leading and trailing whitespace. -/
def pyStrip (s : String) : String :=
  String.mk (((s.data.dropWhile isPySpace).reverse.dropWhile isPySpace).reverse)

/-- The source's `BASE_STAT_PATTERN.match` on an already stripped line:
`^base\s+([^\s]+)\s+([A-Za-z0-9_]+)\s*\(`, returning the two capture groups.
Adjacent classes of the pattern are pairwise disjoint and `(` belongs to
none of them, so the greedy maximal-munch below is the regex's backtracking
semantics. -/
def matchBaseStat (stripped : String) : Option (String × String) :=
  match stripped.data with
  | 'b' :: 'a' :: 's' :: 'e' :: rest =>
    let ws1 := rest.takeWhile isPySpace
    let r1 := rest.dropWhile isPySpace
    let g1 := r1.takeWhile (fun c => !isPySpace c)
    let r2 := r1.dropWhile (fun c => !isPySpace c)
    let ws2 := r2.takeWhile isPySpace
    let r3 := r2.dropWhile isPySpace
    let g2 := r3.takeWhile isWordChar
    let r4 := (r3.dropWhile isWordChar).dropWhile isPySpace
    if ws1.isEmpty || g1.isEmpty || ws2.isEmpty || g2.isEmpty then none
    else
      match r4 with
      | '(' :: _ => some (String.mk g1, String.mk g2)
      | _ => none
  | _ => none

/-- Modelled from the spec: the declaration-line pattern as the spec words it,
"keyword, whitespace, a type token (non-whitespace), whitespace, an identifier
composed of letters/digits/underscore, followed immediately by an opening
parenthesis" — that is, `matchBaseStat` without the `\s*` the source's regex
allows between the identifier and the parenthesis. -/
def matchBaseStatSpecImmediate (stripped : String) : Option (String × String) :=
  match stripped.data with
  | 'b' :: 'a' :: 's' :: 'e' :: rest =>
    let ws1 := rest.takeWhile isPySpace
    let r1 := rest.dropWhile isPySpace
    let g1 := r1.takeWhile (fun c => !isPySpace c)
    let r2 := r1.dropWhile (fun c => !isPySpace c)
    let ws2 := r2.takeWhile isPySpace
    let r3 := r2.dropWhile isPySpace
    let g2 := r3.takeWhile isWordChar
    let r4 := r3.dropWhile isWordChar
    if ws1.isEmpty || g1.isEmpty || ws2.isEmpty || g2.isEmpty then none
    else
      match r4 with
      | '(' :: _ => some (String.mk g1, String.mk g2)
      | _ => none
  | _ => none

/-- Python `dict.get` on an insertion-ordered association list (used for the
compiled schemas and the registry). -/
def dget {α : Type} : List (String × α) → String → Option α
  | [], _ => none
  | (k2, v) :: rest, k => if k2 = k then some v else dget rest k

/-- Python `dict[k] = v`: replace the value in place if the key exists, else
append a new entry. -/
def dset {α : Type} : List (String × α) → String → α → List (String × α)
  | [], k, v => [(k, v)]
  | (k2, v2) :: rest, k, v =>
      if k2 = k then (k, v) :: rest else (k2, v2) :: dset rest k v

/-- One iteration of the loop of the source's `parse_stats_file`: strip the
line, skip it unless it starts with `base ` and matches `BASE_STAT_PATTERN`,
else record the parsed declaration (overwriting any earlier one of the same
name). -/
def parse_stats_line (stats : List (String × StatType)) (line : String) :
    List (String × StatType) :=
  let stripped := pyStrip line
  if pyStartsWith stripped "base " then
    match matchBaseStat stripped with
    | some (type_token, stat_name) => dset stats stat_name (parse_type type_token)
    | none => stats
  else stats

/-- The source's `parse_stats_file` over the lines of the schema source text
(the file read and `splitlines` are the I/O collaborator's part). -/
def parse_stats_file (lines : List String) : List (String × StatType) :=
  lines.foldl parse_stats_line []

/-- A compiled resource-kind schema: statistic name to type descriptor. -/
abbrev StatsSchema := List (String × StatType)

/-- The schema registry: resource-kind identifier to compiled schema (the
source's `schema` dictionary built by `load_schema`; the directory walk that
keys it is the I/O collaborator's part). -/
abbrev Schema := List (String × StatsSchema)

/-! ### Decoded JSON documents -/

mutual
/-- A decoded JSON value as `json.loads` returns it: Python `None`, `bool`,
`int`, `float`, `str`, `list`, `dict`.  Floats carry a rational payload (the
validator never inspects the numeric value, only its runtime type). -/
inductive JValue where
  | null : JValue
  | boolV (b : Bool) : JValue
  | intV (n : Int) : JValue
  | floatV (q : Rat) : JValue
  | strV (s : String) : JValue
  | arrV (items : JArr) : JValue
  | objV (fields : JObj) : JValue

/-- A decoded JSON array: the sequence of its elements. -/
inductive JArr where
  | nil : JArr
  | cons (head : JValue) (tail : JArr) : JArr

/-- A decoded JSON object: its key-value entries in insertion order (keys
unique, as `json.loads` produces them). -/
inductive JObj where
  | nil : JObj
  | cons (key : String) (val : JValue) (tail : JObj) : JObj
end

/-- Build a `JArr` from a list literal. -/
def jarr : List JValue → JArr
  | [] => .nil
  | v :: rest => .cons v (jarr rest)

/-- Build a `JObj` from a list literal. -/
def jobj : List (String × JValue) → JObj
  | [] => .nil
  | (k, v) :: rest => .cons k v (jobj rest)

/-- Python `dict.get` on a decoded object. -/
def jget : JObj → String → Option JValue
  | .nil, _ => none
  | .cons k2 v rest, k => if k2 = k then some v else jget rest k

mutual
/-- Structural size of a decoded value (recursion-budget bookkeeping of the
embedding; no counterpart in the source, which recurses natively). -/
def JValue.jsize : JValue → Nat
  | .null => 1
  | .boolV _ => 1
  | .intV _ => 1
  | .floatV _ => 1
  | .strV _ => 1
  | .arrV items => 1 + items.jsize
  | .objV fields => 1 + fields.jsize

/-- Structural size of a decoded array. -/
def JArr.jsize : JArr → Nat
  | .nil => 1
  | .cons head tail => 1 + head.jsize + tail.jsize

/-- Structural size of a decoded object. -/
def JObj.jsize : JObj → Nat
  | .nil => 1
  | .cons _ val tail => 1 + val.jsize + tail.jsize
end

/-- Python `type(value).__name__` for a decoded JSON value. -/
def JValue.typeName : JValue → String
  | .null => "NoneType"
  | .boolV _ => "bool"
  | .intV _ => "int"
  | .floatV _ => "float"
  | .strV _ => "str"
  | .arrV _ => "list"
  | .objV _ => "dict"

/-- `value is None`. -/
def JValue.isNull : JValue → Bool
  | .null => true
  | _ => false

/-- `isinstance(value, str)`. -/
def JValue.isStr : JValue → Bool
  | .strV _ => true
  | _ => false

/-- `isinstance(value, bool)`. -/
def JValue.isBool : JValue → Bool
  | .boolV _ => true
  | _ => false

/-- `isinstance(value, (int, float))`; in Python `bool` is a subclass of
`int`, so booleans satisfy this check too. -/
def JValue.isIntOrFloat : JValue → Bool
  | .boolV _ => true
  | .intV _ => true
  | .floatV _ => true
  | _ => false

/-- `type(x).__name__` where `x` came from `dict.get` (a missing key is
Python `None`). -/
def optTypeName : Option JValue → String
  | none => "NoneType"
  | some v => v.typeName

/-- Python `str()` of a decoded value, as interpolated into the resource-kind
mismatch message.  Faithful on the cases a well-formed document exercises
(`None`, booleans, integers, strings); the float and container renderings are
abbreviated, no theorem below depends on their spelling. -/
def JValue.pyStr : JValue → String
  | .null => "None"
  | .boolV true => "True"
  | .boolV false => "False"
  | .intV n => toString n
  | .floatV q => toString q
  | .strV s => s
  | .arrV _ => "<list>"
  | .objV _ => "<dict>"

/-- `str()` of a `dict.get` result (a missing key prints as `None`). -/
def optPyStr : Option JValue → String
  | none => "None"
  | some v => v.pyStr

/-- Python `actual != expected` where `expected` is a string and `actual` is
a looked-up document value or `None`: only an equal string compares equal. -/
def neqStr : Option JValue → String → Bool
  | some (.strV s), e => s ≠ e
  | _, _ => true

/-- The source's `META_STATS`: statistic names exempt from schema lookup. -/
def META_STATS : List String := ["id", "updated_at"]

/-- A located error: the path segments active at the failure and the message
(the source renders it as `<file>: <format_path path>: <message>`). -/
structure LocatedError where
  path : List String
  msg : String
deriving DecidableEq, Repr

/-- The source's `format_path`: join the segments, or a root marker. -/
def format_path (path_stack : List String) : String :=
  if path_stack.isEmpty then "<root>" else String.intercalate " -> " path_stack

/-- The source's `add_error`: append one located error to the caller's list
(the `file_path`/`repo_root` display prefix is dropped, see the header). -/
def add_error (errors : List LocatedError) (path_stack : List String)
    (message : String) : List LocatedError :=
  errors ++ [LocatedError.mk path_stack message]

/-- The source's `resource_label`: the cosmetic path segment for a resource
object — its `resource_id` (or a placeholder), plus its `stats.id` when that
is a non-empty string. -/
def resource_label (fields : JObj) : String :=
  let rid_text :=
    match jget fields "resource_id" with
    | some (.strV rid) => "resource_id='" ++ rid ++ "'"
    | _ => "resource_id<?>"
  match jget fields "stats" with
  | some (.objV statFields) =>
    match jget statFields "id" with
    | some (.strV stat_id) =>
        if stat_id ≠ "" then rid_text ++ " (id='" ++ stat_id ++ "')" else rid_text
    | _ => rid_text
  | _ => rid_text

/-- A value looked up by `jget` is structurally smaller than its object. -/
theorem jget_jsize : ∀ (fields : JObj) (k : String) (v : JValue),
    jget fields k = some v → v.jsize < fields.jsize
  | .nil, _, _, h => by simp [jget] at h
  | .cons k2 v2 rest, k, v, h => by
    simp only [jget] at h
    split at h
    · cases h
      simp [JObj.jsize]
      omega
    · have := jget_jsize rest k v h
      simp [JObj.jsize]
      omega

/-! ### Validation engine

The source's `validate_resource_instance` and `validate_value` are mutually
recursive, and each contains a loop (over `stats.items()` and over the array
elements) that threads the error accumulator.  The translation packs the four
recursions — document check, statistics loop, value check, element loop —
into the task sum `VTask`, interpreted by the single structurally recursive
`runValidate`.  Recursion is on an explicit budget `fuel`, decremented on
every call; the source-named wrappers below instantiate a budget that
`runValidate_fuel_eq` proves sufficient (every recursive call strictly
decreases `VTask.measure`, and any two budgets above the measure compute the
same result — the Python function's). -/

/-- The non-recursive kind checks of the source's `validate_value` chain
(`unknown`, `string`, `bool`, `integer`, `photo`, and the silent fall-through
for any other kind).  The `resource` case — the only recursive one, tested
last in the source's chain — stays in `runValidate`; hoisting its test before
these five preserves the dispatch because the kind equalities are mutually
exclusive. -/
def validate_scalar (value : JValue) (stat_type : StatType)
    (errors : List LocatedError) (path_stack : List String) : List LocatedError :=
  if stat_type.kind = "unknown" then errors
  else if stat_type.kind = "string" then
    if !value.isStr then
      add_error errors path_stack ("Expected string, got " ++ value.typeName)
    else errors
  else if stat_type.kind = "bool" then
    if !value.isBool then
      add_error errors path_stack ("Expected bool, got " ++ value.typeName)
    else errors
  else if stat_type.kind = "integer" then
    if value.isBool ∨ !value.isIntOrFloat then
      add_error errors path_stack ("Expected number, got " ++ value.typeName)
    else errors
  else if stat_type.kind = "photo" then
    match value with
    | .objV fields =>
      match jget fields "url" with
      | some u =>
          if !u.isStr then
            add_error errors (path_stack ++ ["url"])
              ("Expected url string, got " ++ u.typeName)
          else errors
      | none => errors
    | _ => add_error errors path_stack ("Expected photo object, got " ++ value.typeName)
  else errors

/-- One pending validation obligation: a document node, the remaining
entries of a `stats` loop, a value against a descriptor, or the remaining
elements of an array loop. -/
inductive VTask where
  | doc (resource_obj : JValue) (path_stack : List String) : VTask
  | stats (entries : JObj) (stats_schema : StatsSchema)
      (current_stack : List String) : VTask
  | value (value : JValue) (stat_type : StatType) (path_stack : List String) : VTask
  | elems (items : JArr) (idx : Nat) (element_type : StatType)
      (path_stack : List String) : VTask

/-- Interpreter for the four mutually recursive validations of the source.
`VTask.doc` is the body of `validate_resource_instance`, `VTask.stats` its
per-statistic loop, `VTask.value` the body of `validate_value`, and
`VTask.elems` its array-element loop; each recursive call of the source is a
recursive call here with one unit of budget consumed.  An exhausted budget
returns the accumulator unchanged (never reached from the wrappers below). -/
def runValidate (schema : Schema) : Nat → VTask → List LocatedError → List LocatedError
  | 0, _, errors => errors
  | fuel + 1, task, errors =>
    match task with
    | .doc resource_obj path_stack =>
      match resource_obj with
      | .objV fields =>
        match jget fields "resource_id" with
        | some (.strV rid) =>
          if rid = "" then
            add_error errors path_stack "Missing or invalid resource_id"
          else
            match dget schema rid with
            | none =>
                add_error errors (path_stack ++ ["resource_id='" ++ rid ++ "'"])
                  "Unknown resource_id (no stats.rpgs found)"
            | some stats_schema =>
              match jget fields "stats" with
              | some (.objV stats) =>
                  runValidate schema fuel
                    (.stats stats stats_schema (path_stack ++ [resource_label fields]))
                    errors
              | o =>
                  add_error errors (path_stack ++ [resource_label fields])
                    ("Missing or invalid stats object, got " ++ optTypeName o)
        | _ => add_error errors path_stack "Missing or invalid resource_id"
      | v => add_error errors path_stack ("Expected object for resource, got " ++ v.typeName)
    | .stats entries stats_schema current_stack =>
      match entries with
      | .nil => errors
      | .cons stat_name stat_value rest =>
        if stat_name ∈ META_STATS then
          runValidate schema fuel (.stats rest stats_schema current_stack) errors
        else
          match dget stats_schema stat_name with
          | none =>
              runValidate schema fuel (.stats rest stats_schema current_stack)
                (add_error errors (current_stack ++ ["stats." ++ stat_name])
                  "Unknown stat for this resource")
          | some stat_type =>
            match stat_value with
            | .objV sv =>
              match jget sv "value" with
              | some v =>
                  runValidate schema fuel (.stats rest stats_schema current_stack)
                    (runValidate schema fuel
                      (.value v stat_type (current_stack ++ ["stats." ++ stat_name ++ ".value"]))
                      errors)
              | none =>
                  runValidate schema fuel (.stats rest stats_schema current_stack)
                    (add_error errors (current_stack ++ ["stats." ++ stat_name])
                      "Expected an object with a 'value' field")
            | _ =>
                runValidate schema fuel (.stats rest stats_schema current_stack)
                  (add_error errors (current_stack ++ ["stats." ++ stat_name])
                    "Expected an object with a 'value' field")
    | .value value stat_type path_stack =>
      if value.isNull then errors
      else if stat_type.is_array then
        match value with
        | .arrV items =>
            runValidate schema fuel (.elems items 0 stat_type.element_type path_stack) errors
        | _ => add_error errors path_stack ("Expected array, got " ++ value.typeName)
      else if stat_type.kind = "resource" then
        match value with
        | .objV fields =>
          runValidate schema fuel (.doc (.objV fields) path_stack)
            (match stat_type.resource_type with
             | some expected =>
                 if expected ≠ "" ∧ neqStr (jget fields "resource_id") expected then
                   add_error errors path_stack
                     ("Expected resource_id '" ++ expected ++ "', got '"
                       ++ optPyStr (jget fields "resource_id") ++ "'")
                 else errors
             | none => errors)
        | _ => add_error errors path_stack ("Expected resource object, got " ++ value.typeName)
      else validate_scalar value stat_type errors path_stack
    | .elems items idx element_type path_stack =>
      match items with
      | .nil => errors
      | .cons item rest =>
        if item.isNull ∧ element_type.kind = "resource" then
          runValidate schema fuel (.elems rest (idx + 1) element_type path_stack) errors
        else
          runValidate schema fuel (.elems rest (idx + 1) element_type path_stack)
            (runValidate schema fuel
              (.value item element_type (path_stack ++ ["[" ++ toString idx ++ "]"]))
              errors)

/-- The budget each task needs: every recursive call of `runValidate`
strictly decreases it, so any `fuel` above it makes `runValidate`
fuel-independent (`runValidate_fuel_eq`). -/
def VTask.measure : VTask → Nat
  | .doc resource_obj _ => 2 * resource_obj.jsize
  | .stats entries _ _ => 2 * entries.jsize + 1
  | .value v _ _ => 2 * v.jsize + 1
  | .elems items _ _ _ => 2 * items.jsize

/-- The source's `validate_resource_instance(resource_obj, schema, errors,
file_path, repo_root, path_stack)` (display-only arguments dropped). -/
def validate_resource_instance (resource_obj : JValue) (schema : Schema)
    (errors : List LocatedError) (path_stack : List String) : List LocatedError :=
  runValidate schema (2 * resource_obj.jsize + 1) (.doc resource_obj path_stack) errors

/-- The source's `validate_value(value, stat_type, schema, errors, file_path,
repo_root, path_stack)` (display-only arguments dropped). -/
def validate_value (value : JValue) (stat_type : StatType) (schema : Schema)
    (errors : List LocatedError) (path_stack : List String) : List LocatedError :=
  runValidate schema (2 * value.jsize + 2) (.value value stat_type path_stack) errors

/-- The `for stat_name, stat_value in stats.items()` loop of the source's
`validate_resource_instance`, from the given remaining entries. -/
def validate_stats (entries : JObj) (stats_schema : StatsSchema)
    (schema : Schema) (errors : List LocatedError) (current_stack : List String) :
    List LocatedError :=
  runValidate schema (2 * entries.jsize + 2) (.stats entries stats_schema current_stack) errors

/-- The `for idx, item in enumerate(value)` loop of the source's
`validate_value`, from the given remaining elements and next index. -/
def validate_elements (items : JArr) (idx : Nat) (element_type : StatType)
    (schema : Schema) (errors : List LocatedError) (path_stack : List String) :
    List LocatedError :=
  runValidate schema (2 * items.jsize + 1) (.elems items idx element_type path_stack) errors

/-- The element loop with the resource-null fast path removed: every element,
`null` included, goes through the generic value check `validate_value`. -/
def validate_elements_nofast (items : JArr) (idx : Nat) (element_type : StatType)
    (schema : Schema) (errors : List LocatedError) (path_stack : List String) :
    List LocatedError :=
  match items with
  | .nil => errors
  | .cons item rest =>
      validate_elements_nofast rest (idx + 1) element_type schema
        (validate_value item element_type schema errors
          (path_stack ++ ["[" ++ toString idx ++ "]"]))
        path_stack

/-- The accumulation of the source's `main` loop over the decoded instance
documents of one run: each document is validated with an empty initial path,
extending the shared error list. -/
def validate_run (docs : List JValue) (schema : Schema)
    (errors : List LocatedError) : List LocatedError :=
  match docs with
  | [] => errors
  | d :: rest => validate_run rest schema (validate_resource_instance d schema errors [])

/-- `validate_scalar` only appends to the error accumulator. -/
theorem validate_scalar_append (v : JValue) (t : StatType)
    (pre errors : List LocatedError) (path : List String) :
    validate_scalar v t (pre ++ errors) path = pre ++ validate_scalar v t errors path := by
  rcases v with _ | b | n | q | s | items | fields
  · simp only [validate_scalar]
    split_ifs <;> simp [add_error]
  · simp only [validate_scalar]
    split_ifs <;> simp [add_error]
  · simp only [validate_scalar]
    split_ifs <;> simp [add_error]
  · simp only [validate_scalar]
    split_ifs <;> simp [add_error]
  · simp only [validate_scalar]
    split_ifs <;> simp [add_error]
  · simp only [validate_scalar]
    split_ifs <;> simp [add_error]
  · rcases hurl : jget fields "url" with _ | u
    · simp only [validate_scalar, hurl]
      split_ifs <;> simp [add_error]
    · simp only [validate_scalar, hurl]
      split_ifs <;> simp [add_error]

set_option maxHeartbeats 1600000 in
/-- `runValidate` only appends: running it on `pre ++ errors` prefixes `pre`
to the result of running it on `errors` — the state-passing reading of
"mutates nothing except appending to the caller's error list". -/
theorem runValidate_append (fuel : Nat) :
    ∀ (task : VTask) (schema : Schema) (pre errors : List LocatedError),
      runValidate schema fuel task (pre ++ errors)
        = pre ++ runValidate schema fuel task errors := by
  induction fuel with
  | zero => intro task schema pre errors; rfl
  | succ fuel ih =>
    intro task schema pre errors
    cases task with
    | doc v path =>
      rcases v with _ | b | n | q | s | items | fields
      · simp [runValidate, add_error]
      · simp [runValidate, add_error]
      · simp [runValidate, add_error]
      · simp [runValidate, add_error]
      · simp [runValidate, add_error]
      · simp [runValidate, add_error]
      · rcases hrid : jget fields "resource_id" with _ | rv
        · simp [runValidate, hrid, add_error]
        · rcases rv with _ | b | n | q | rid | items | f2
          · simp [runValidate, hrid, add_error]
          · simp [runValidate, hrid, add_error]
          · simp [runValidate, hrid, add_error]
          · simp [runValidate, hrid, add_error]
          · by_cases hempty : rid = ""
            · simp [runValidate, hrid, hempty, add_error]
            · rcases hky : dget schema rid with _ | ss
              · simp [runValidate, hrid, hempty, hky, add_error]
              · rcases hst : jget fields "stats" with _ | sv
                · simp [runValidate, hrid, hempty, hky, hst, add_error]
                · rcases sv with _ | b2 | n2 | q2 | s2 | items2 | stats
                  · simp [runValidate, hrid, hempty, hky, hst, add_error]
                  · simp [runValidate, hrid, hempty, hky, hst, add_error]
                  · simp [runValidate, hrid, hempty, hky, hst, add_error]
                  · simp [runValidate, hrid, hempty, hky, hst, add_error]
                  · simp [runValidate, hrid, hempty, hky, hst, add_error]
                  · simp [runValidate, hrid, hempty, hky, hst, add_error]
                  · simp [runValidate, hrid, hempty, hky, hst, ih]
          · simp [runValidate, hrid, add_error]
          · simp [runValidate, hrid, add_error]
    | stats entries ss cur =>
      cases entries with
      | nil => simp [runValidate]
      | cons stat_name stat_value rest =>
        by_cases hmeta : stat_name ∈ META_STATS
        · simp [runValidate, hmeta, ih]
        · rcases hty : dget ss stat_name with _ | stat_type
          · simp [runValidate, hmeta, hty, ih, add_error]
          · rcases stat_value with _ | b | n | q | s | items | sv
            · simp [runValidate, hmeta, hty, ih, add_error]
            · simp [runValidate, hmeta, hty, ih, add_error]
            · simp [runValidate, hmeta, hty, ih, add_error]
            · simp [runValidate, hmeta, hty, ih, add_error]
            · simp [runValidate, hmeta, hty, ih, add_error]
            · simp [runValidate, hmeta, hty, ih, add_error]
            · rcases hv : jget sv "value" with _ | v
              · simp [runValidate, hmeta, hty, hv, ih, add_error]
              · simp [runValidate, hmeta, hty, hv, ih]
    | value v t path =>
      by_cases hnull : v.isNull
      · simp [runValidate, hnull]
      · by_cases harr : t.is_array
        · rcases v with _ | b | n | q | s | items | fields
          · simp [JValue.isNull] at hnull
          · simp [runValidate, hnull, harr, add_error]
          · simp [runValidate, hnull, harr, add_error]
          · simp [runValidate, hnull, harr, add_error]
          · simp [runValidate, hnull, harr, add_error]
          · simp [runValidate, hnull, harr, ih]
          · simp [runValidate, hnull, harr, add_error]
        · by_cases hres : t.kind = "resource"
          · rcases v with _ | b | n | q | s | items | fields
            · simp [JValue.isNull] at hnull
            · simp [runValidate, hnull, harr, hres, add_error]
            · simp [runValidate, hnull, harr, hres, add_error]
            · simp [runValidate, hnull, harr, hres, add_error]
            · simp [runValidate, hnull, harr, hres, add_error]
            · simp [runValidate, hnull, harr, hres, add_error]
            · rcases hrt : t.resource_type with _ | expected
              · simp [runValidate, hnull, harr, hres, hrt, ih]
              · by_cases hcond : expected ≠ "" ∧ neqStr (jget fields "resource_id") expected
                · simp [runValidate, hnull, harr, hres, hrt, hcond, ih, add_error]
                · simp [runValidate, hnull, harr, hres, hrt, hcond, ih]
          · simp [runValidate, hnull, harr, hres, validate_scalar_append]
    | elems items idx t path =>
      cases items with
      | nil => simp [runValidate]
      | cons item rest =>
        by_cases hskip : item.isNull ∧ t.kind = "resource"
        · simp [runValidate, hskip, ih]
        · simp [runValidate, hskip, ih]

set_option maxHeartbeats 1600000 in
/-- `runValidate` is independent of the budget once the budget exceeds the
task's measure: every recursive call strictly decreases `VTask.measure`, so
any two sufficient budgets compute the same errors.  This is what lets the
wrappers below fix one concrete sufficient budget. -/
theorem runValidate_fuel_eq :
    ∀ (f1 f2 : Nat) (task : VTask) (schema : Schema) (errors : List LocatedError),
      task.measure < f1 → task.measure < f2 →
      runValidate schema f1 task errors = runValidate schema f2 task errors := by
  intro f1
  induction f1 using Nat.strong_induction_on with
  | _ f1 ih =>
    intro f2 task schema errors h1 h2
    cases f1 with
    | zero => exact absurd h1 (Nat.not_lt_zero _)
    | succ k =>
      cases f2 with
      | zero => exact absurd h2 (Nat.not_lt_zero _)
      | succ j =>
        cases task with
        | doc v path =>
          rcases v with _ | b | n | q | s | items | fields
          · simp [runValidate]
          · simp [runValidate]
          · simp [runValidate]
          · simp [runValidate]
          · simp [runValidate]
          · simp [runValidate]
          · rcases hrid : jget fields "resource_id" with _ | rv
            · simp [runValidate, hrid]
            · rcases rv with _ | b | n | q | rid | items | f2
              · simp [runValidate, hrid]
              · simp [runValidate, hrid]
              · simp [runValidate, hrid]
              · simp [runValidate, hrid]
              · by_cases hempty : rid = ""
                · simp [runValidate, hrid, hempty]
                · rcases hky : dget schema rid with _ | ss
                  · simp [runValidate, hrid, hempty, hky]
                  · rcases hst : jget fields "stats" with _ | sv
                    · simp [runValidate, hrid, hempty, hky, hst]
                    · rcases sv with _ | b2 | n2 | q2 | s2 | items2 | stats
                      · simp [runValidate, hrid, hempty, hky, hst]
                      · simp [runValidate, hrid, hempty, hky, hst]
                      · simp [runValidate, hrid, hempty, hky, hst]
                      · simp [runValidate, hrid, hempty, hky, hst]
                      · simp [runValidate, hrid, hempty, hky, hst]
                      · simp [runValidate, hrid, hempty, hky, hst]
                      · have hm := jget_jsize _ _ _ hst
                        simp only [VTask.measure, JValue.jsize] at h1 h2 hm
                        simp only [runValidate, hrid, hempty, hky, hst]
                        exact ih k (Nat.lt_succ_self k) j _ schema errors
                          (by simp only [VTask.measure]; omega)
                          (by simp only [VTask.measure]; omega)
              · simp [runValidate, hrid]
              · simp [runValidate, hrid]
        | stats entries ss cur =>
          cases entries with
          | nil => simp [runValidate]
          | cons stat_name stat_value rest =>
            by_cases hmeta : stat_name ∈ META_STATS
            · simp only [VTask.measure, JObj.jsize] at h1 h2
              simp only [runValidate, hmeta, if_true]
              exact ih k (Nat.lt_succ_self k) j _ schema errors
                (by simp only [VTask.measure]; omega)
                (by simp only [VTask.measure]; omega)
            · rcases hty : dget ss stat_name with _ | stat_type
              · simp only [VTask.measure, JObj.jsize] at h1 h2
                simp only [runValidate, hty]
                rw [if_neg hmeta, if_neg hmeta]
                exact ih k (Nat.lt_succ_self k) j _ schema _
                  (by simp only [VTask.measure]; omega)
                  (by simp only [VTask.measure]; omega)
              · rcases stat_value with _ | b | n | q | s | items | sv
                · simp only [VTask.measure, JObj.jsize] at h1 h2
                  simp only [runValidate, hty]
                  rw [if_neg hmeta, if_neg hmeta]
                  exact ih k (Nat.lt_succ_self k) j _ schema _
                    (by simp only [VTask.measure]; omega)
                    (by simp only [VTask.measure]; omega)
                · simp only [VTask.measure, JObj.jsize] at h1 h2
                  simp only [runValidate, hty]
                  rw [if_neg hmeta, if_neg hmeta]
                  exact ih k (Nat.lt_succ_self k) j _ schema _
                    (by simp only [VTask.measure]; omega)
                    (by simp only [VTask.measure]; omega)
                · simp only [VTask.measure, JObj.jsize] at h1 h2
                  simp only [runValidate, hty]
                  rw [if_neg hmeta, if_neg hmeta]
                  exact ih k (Nat.lt_succ_self k) j _ schema _
                    (by simp only [VTask.measure]; omega)
                    (by simp only [VTask.measure]; omega)
                · simp only [VTask.measure, JObj.jsize] at h1 h2
                  simp only [runValidate, hty]
                  rw [if_neg hmeta, if_neg hmeta]
                  exact ih k (Nat.lt_succ_self k) j _ schema _
                    (by simp only [VTask.measure]; omega)
                    (by simp only [VTask.measure]; omega)
                · simp only [VTask.measure, JObj.jsize] at h1 h2
                  simp only [runValidate, hty]
                  rw [if_neg hmeta, if_neg hmeta]
                  exact ih k (Nat.lt_succ_self k) j _ schema _
                    (by simp only [VTask.measure]; omega)
                    (by simp only [VTask.measure]; omega)
                · simp only [VTask.measure, JObj.jsize] at h1 h2
                  simp only [runValidate, hty]
                  rw [if_neg hmeta, if_neg hmeta]
                  exact ih k (Nat.lt_succ_self k) j _ schema _
                    (by simp only [VTask.measure]; omega)
                    (by simp only [VTask.measure]; omega)
                · simp only [VTask.measure, JObj.jsize, JValue.jsize] at h1 h2
                  rcases hv : jget sv "value" with _ | v
                  · simp only [runValidate, hty, hv]
                    rw [if_neg hmeta, if_neg hmeta]
                    exact ih k (Nat.lt_succ_self k) j _ schema _
                      (by simp only [VTask.measure]; omega)
                      (by simp only [VTask.measure]; omega)
                  · have hm := jget_jsize _ _ _ hv
                    simp only [runValidate, hty, hv]
                    rw [if_neg hmeta, if_neg hmeta]
                    have hvv := ih k (Nat.lt_succ_self k) j
                      (.value v stat_type (cur ++ ["stats." ++ stat_name ++ ".value"])) schema errors
                      (by simp only [VTask.measure]; omega)
                      (by simp only [VTask.measure]; omega)
                    rw [hvv]
                    exact ih k (Nat.lt_succ_self k) j _ schema _
                      (by simp only [VTask.measure]; omega)
                      (by simp only [VTask.measure]; omega)
        | value v t path =>
          by_cases hnull : v.isNull
          · simp [runValidate, hnull]
          · by_cases harr : t.is_array
            · rcases v with _ | b | n | q | s | items | fields
              · simp [JValue.isNull] at hnull
              · simp [runValidate, hnull, harr]
              · simp [runValidate, hnull, harr]
              · simp [runValidate, hnull, harr]
              · simp [runValidate, hnull, harr]
              · simp only [VTask.measure, JValue.jsize] at h1 h2
                simp only [runValidate, JValue.isNull, Bool.false_eq_true, if_false, harr, if_true]
                exact ih k (Nat.lt_succ_self k) j _ schema errors
                  (by simp only [VTask.measure]; omega)
                  (by simp only [VTask.measure]; omega)
              · simp [runValidate, hnull, harr]
            · by_cases hres : t.kind = "resource"
              · rcases v with _ | b | n | q | s | items | fields
                · simp [JValue.isNull] at hnull
                · simp [runValidate, hnull, harr, hres]
                · simp [runValidate, hnull, harr, hres]
                · simp [runValidate, hnull, harr, hres]
                · simp [runValidate, hnull, harr, hres]
                · simp [runValidate, hnull, harr, hres]
                · simp only [VTask.measure, JValue.jsize] at h1 h2
                  simp only [runValidate, JValue.isNull, Bool.false_eq_true, if_false, harr, hres,
                    if_true]
                  exact ih k (Nat.lt_succ_self k) j _ schema _
                    (by simp only [VTask.measure, JValue.jsize]; omega)
                    (by simp only [VTask.measure, JValue.jsize]; omega)
              · simp [runValidate, hnull, harr, hres]
        | elems items idx t path =>
          cases items with
          | nil => simp [runValidate]
          | cons item rest =>
            simp only [VTask.measure, JArr.jsize] at h1 h2
            by_cases hskip : item.isNull ∧ t.kind = "resource"
            · simp only [runValidate]
              rw [if_pos hskip, if_pos hskip]
              exact ih k (Nat.lt_succ_self k) j _ schema errors
                (by simp only [VTask.measure]; omega)
                (by simp only [VTask.measure]; omega)
            · simp only [runValidate]
              rw [if_neg hskip, if_neg hskip]
              have hvv := ih k (Nat.lt_succ_self k) j
                (.value item t (path ++ ["[" ++ toString idx ++ "]"])) schema errors
                (by simp only [VTask.measure]; omega)
                (by simp only [VTask.measure]; omega)
              rw [hvv]
              exact ih k (Nat.lt_succ_self k) j _ schema _
                (by simp only [VTask.measure]; omega)
                (by simp only [VTask.measure]; omega)

/-! ### Wrapper-level equations

One-step unfoldings of `runValidate` at symbolic budget, and from them the
defining equations of the source's mutually recursive functions at the level
of the source-named wrappers. -/

/-- `isNull` holds only for `null`. -/
theorem isNull_eq_null (v : JValue) (h : v.isNull = true) : v = .null := by
  cases v <;> simp [JValue.isNull] at h <;> rfl

/-- One step of the document check, stats branch. -/
theorem runValidate_doc_stats_step (fuel : Nat) (fields : JObj) (rid : String)
    (ss : StatsSchema) (stats : JObj) (schema : Schema)
    (errors : List LocatedError) (path : List String)
    (hrid : jget fields "resource_id" = some (.strV rid)) (hempty : rid ≠ "")
    (hky : dget schema rid = some ss) (hst : jget fields "stats" = some (.objV stats)) :
    runValidate schema (fuel + 1) (.doc (.objV fields) path) errors
      = runValidate schema fuel (.stats stats ss (path ++ [resource_label fields])) errors := by
  simp only [runValidate, hrid, hky, hst]
  rw [if_neg hempty]

/-- One step of the document check, unknown-`resource_id` branch. -/
theorem runValidate_doc_unknown_step (fuel : Nat) (fields : JObj) (rid : String)
    (schema : Schema) (errors : List LocatedError) (path : List String)
    (hrid : jget fields "resource_id" = some (.strV rid)) (hempty : rid ≠ "")
    (hky : dget schema rid = none) :
    runValidate schema (fuel + 1) (.doc (.objV fields) path) errors
      = add_error errors (path ++ ["resource_id='" ++ rid ++ "'"])
          "Unknown resource_id (no stats.rpgs found)" := by
  simp only [runValidate, hrid, hky]
  rw [if_neg hempty]

/-- One step of the value check, `resource` kind on an object. -/
theorem runValidate_value_resource_step (fuel : Nat) (fields : JObj)
    (rt : Option String) (schema : Schema) (errors : List LocatedError)
    (path : List String) :
    runValidate schema (fuel + 1)
        (.value (.objV fields) (StatType.mk "resource" false rt) path) errors
      = runValidate schema fuel (.doc (.objV fields) path)
          (match rt with
           | some expected =>
               if expected ≠ "" ∧ neqStr (jget fields "resource_id") expected then
                 add_error errors path
                   ("Expected resource_id '" ++ expected ++ "', got '"
                     ++ optPyStr (jget fields "resource_id") ++ "'")
               else errors
           | none => errors) := by
  simp only [runValidate, JValue.isNull, Bool.false_eq_true, if_false, if_true]

/-- One step of the value check, array flag set on a list value. -/
theorem runValidate_value_array_step (fuel : Nat) (items : JArr) (t : StatType)
    (schema : Schema) (errors : List LocatedError) (path : List String)
    (harr : t.is_array = true) :
    runValidate schema (fuel + 1) (.value (.arrV items) t path) errors
      = runValidate schema fuel (.elems items 0 t.element_type path) errors := by
  simp only [runValidate, JValue.isNull, Bool.false_eq_true, if_false, harr, if_true]

/-- One step of the element loop on a non-empty array. -/
theorem runValidate_elems_cons_step (fuel : Nat) (item : JValue) (rest : JArr)
    (idx : Nat) (t : StatType) (schema : Schema) (errors : List LocatedError)
    (path : List String) :
    runValidate schema (fuel + 1) (.elems (.cons item rest) idx t path) errors
      = if item.isNull ∧ t.kind = "resource" then
          runValidate schema fuel (.elems rest (idx + 1) t path) errors
        else
          runValidate schema fuel (.elems rest (idx + 1) t path)
            (runValidate schema fuel
              (.value item t (path ++ ["[" ++ toString idx ++ "]"])) errors) := by
  simp only [runValidate]

/-- A `null` value is accepted against any descriptor without error. -/
theorem validate_value_null_eq (t : StatType) (schema : Schema)
    (errors : List LocatedError) (path : List String) :
    validate_value .null t schema errors path = errors := rfl

/-- The `resource`-kind equation of `validate_value` on an object: emit the
resource-kind mismatch error when a non-empty constraint differs from the
value's `resource_id`, then recurse into full document validation. -/
theorem validate_value_resource_eq (fields : JObj) (rt : Option String)
    (schema : Schema) (errors : List LocatedError) (path : List String) :
    validate_value (.objV fields) (StatType.mk "resource" false rt) schema errors path
      = validate_resource_instance (.objV fields) schema
          (match rt with
           | some expected =>
               if expected ≠ "" ∧ neqStr (jget fields "resource_id") expected then
                 add_error errors path
                   ("Expected resource_id '" ++ expected ++ "', got '"
                     ++ optPyStr (jget fields "resource_id") ++ "'")
               else errors
           | none => errors) path := by
  show runValidate schema ((2 * (JValue.objV fields).jsize + 1) + 1)
      (.value (.objV fields) (StatType.mk "resource" false rt) path) errors = _
  rw [runValidate_value_resource_step]
  rfl

/-- The array equation of `validate_value`: a list value is checked element
by element against the element type. -/
theorem validate_value_array_eq (items : JArr) (t : StatType)
    (schema : Schema) (errors : List LocatedError) (path : List String)
    (harr : t.is_array = true) :
    validate_value (.arrV items) t schema errors path
      = validate_elements items 0 t.element_type schema errors path := by
  show runValidate schema ((2 * (JValue.arrV items).jsize + 1) + 1)
      (.value (.arrV items) t path) errors = _
  rw [runValidate_value_array_step _ _ _ _ _ _ harr]
  refine runValidate_fuel_eq _ _ _ _ _ ?_ ?_ <;>
    simp only [VTask.measure, JValue.jsize, JArr.jsize] <;> omega

/-- The unknown-`resource_id` equation of `validate_resource_instance`:
exactly one error, no statistic-level checking. -/
theorem validate_resource_instance_unknown_eq (fields : JObj) (rid : String)
    (schema : Schema) (errors : List LocatedError) (path : List String)
    (hrid : jget fields "resource_id" = some (.strV rid)) (hempty : rid ≠ "")
    (hky : dget schema rid = none) :
    validate_resource_instance (.objV fields) schema errors path
      = add_error errors (path ++ ["resource_id='" ++ rid ++ "'"])
          "Unknown resource_id (no stats.rpgs found)" := by
  exact runValidate_doc_unknown_step _ _ _ _ _ _ hrid hempty hky

/-- The stats equation of `validate_resource_instance`: with the identity
check and the schema lookup passed and a well-formed `stats` object,
validation is the per-statistic loop under the resource's label. -/
theorem validate_resource_instance_stats_eq (fields : JObj) (rid : String)
    (ss : StatsSchema) (stats : JObj) (schema : Schema)
    (errors : List LocatedError) (path : List String)
    (hrid : jget fields "resource_id" = some (.strV rid)) (hempty : rid ≠ "")
    (hky : dget schema rid = some ss) (hst : jget fields "stats" = some (.objV stats)) :
    validate_resource_instance (.objV fields) schema errors path
      = validate_stats stats ss schema errors (path ++ [resource_label fields]) := by
  have h1 := runValidate_doc_stats_step (2 * (JValue.objV fields).jsize) fields rid ss stats
    schema errors path hrid hempty hky hst
  rw [validate_resource_instance, h1]
  have hm := jget_jsize _ _ _ hst
  simp only [JValue.jsize] at hm
  refine runValidate_fuel_eq _ _ _ _ _ ?_ ?_ <;>
    simp only [VTask.measure, JValue.jsize, JObj.jsize] <;> omega

/-- The element-loop equation: a `null` element of `resource` kind is
skipped, any other element goes through the generic value check at its
indexed path. -/
theorem validate_elements_cons_eq (item : JValue) (rest : JArr) (idx : Nat)
    (t : StatType) (schema : Schema) (errors : List LocatedError) (path : List String) :
    validate_elements (.cons item rest) idx t schema errors path
      = if item.isNull ∧ t.kind = "resource" then
          validate_elements rest (idx + 1) t schema errors path
        else
          validate_elements rest (idx + 1) t schema
            (validate_value item t schema errors (path ++ ["[" ++ toString idx ++ "]"]))
            path := by
  rw [validate_elements, runValidate_elems_cons_step]
  by_cases hskip : item.isNull ∧ t.kind = "resource"
  · rw [if_pos hskip, if_pos hskip]
    refine runValidate_fuel_eq _ _ _ _ _ ?_ ?_ <;>
      simp only [VTask.measure, JArr.jsize] <;> omega
  · rw [if_neg hskip, if_neg hskip]
    have hvv : runValidate schema (2 * (JArr.cons item rest).jsize)
        (.value item t (path ++ ["[" ++ toString idx ++ "]"])) errors
        = runValidate schema (2 * item.jsize + 2)
            (.value item t (path ++ ["[" ++ toString idx ++ "]"])) errors := by
      refine runValidate_fuel_eq _ _ _ _ _ ?_ ?_ <;>
        simp only [VTask.measure, JArr.jsize] <;> omega
    rw [hvv]
    refine runValidate_fuel_eq _ _ _ _ _ ?_ ?_ <;>
      simp only [VTask.measure, JArr.jsize] <;> omega

/-- Wrapper form of `runValidate_append` for `validate_resource_instance`. -/
theorem validate_resource_instance_append (doc : JValue) (schema : Schema)
    (errors : List LocatedError) (path : List String) :
    validate_resource_instance doc schema errors path
      = errors ++ validate_resource_instance doc schema [] path := by
  have h := runValidate_append (2 * doc.jsize + 1) (.doc doc path) schema errors []
  rw [List.append_nil] at h
  exact h

/-- Wrapper form of `runValidate_append` for `validate_value`. -/
theorem validate_value_append (v : JValue) (t : StatType) (schema : Schema)
    (errors : List LocatedError) (path : List String) :
    validate_value v t schema errors path
      = errors ++ validate_value v t schema [] path := by
  have h := runValidate_append (2 * v.jsize + 2) (.value v t path) schema errors []
  rw [List.append_nil] at h
  exact h

/-- Setting a key with `dset` then reading it back yields the value written:
a later write overwrites an earlier one. -/
theorem dget_dset {α : Type} : ∀ (m : List (String × α)) (k : String) (v : α),
    dget (dset m k v) k = some v
  | [], k, v => by simp [dset, dget]
  | (k2, v2) :: rest, k, v => by
    by_cases h : k2 = k
    · simp [dset, h, dget]
    · simp [dset, h, dget, dget_dset rest k v]

/-- Helper for C8: the element loop equals its fast-path-free variant, by
recursion on the element list. -/
theorem validate_elements_eq_nofast : ∀ (items : JArr) (idx : Nat) (t : StatType)
    (schema : Schema) (errors : List LocatedError) (path : List String),
    validate_elements items idx t schema errors path
      = validate_elements_nofast items idx t schema errors path
  | .nil, _, _, _, _, _ => rfl
  | .cons item rest, idx, t, schema, errors, path => by
    rw [validate_elements_cons_eq]
    by_cases hskip : item.isNull ∧ t.kind = "resource"
    · have hnull := isNull_eq_null item hskip.1
      subst hnull
      rw [if_pos hskip, validate_elements_eq_nofast rest]
      rfl
    · rw [if_neg hskip, validate_elements_eq_nofast rest]
      rfl

/-! ### The claims -/

/-- C1: for a statistic declared with kind Resource and a named (non-empty)
resource-kind constraint, a nested object whose own `resource_id` differs
from the constraint yields exactly one resource-kind mismatch error at the
current path, and validation still recurses into the full document
validation of the nested object, so the nested object's own errors (such as
an unknown `resource_id`) are also emitted after it. -/
theorem c1_resource_mismatch_still_recurses (fields : JObj) (rk : String)
    (schema : Schema) (errors : List LocatedError) (path : List String)
    (hk : rk ≠ "") (hneq : neqStr (jget fields "resource_id") rk = true) :
    validate_value (.objV fields) (StatType.mk "resource" false (some rk)) schema errors path
      = errors
        ++ LocatedError.mk path ("Expected resource_id '" ++ rk ++ "', got '"
            ++ optPyStr (jget fields "resource_id") ++ "'")
          :: validate_resource_instance (.objV fields) schema [] path := by
  rw [validate_value_resource_eq]
  have hcond : rk ≠ "" ∧ neqStr (jget fields "resource_id") rk = true := ⟨hk, hneq⟩
  simp only [ne_eq, hk, not_false_eq_true, hneq, and_self, if_true, if_pos hcond]
  rw [validate_resource_instance_append, add_error]
  simp [List.append_assoc]

/-- C1 witness: schema constraint `resource<sword>`, nested value whose
`resource_id` is `"axe"`, empty registry. -/
theorem c1_resource_mismatch_still_recurses_witness :
    validate_value (.objV (jobj [("resource_id", .strV "axe")]))
        (StatType.mk "resource" false (some "sword")) [] [] []
      = []
        ++ LocatedError.mk [] ("Expected resource_id 'sword', got '"
            ++ optPyStr (jget (jobj [("resource_id", .strV "axe")]) "resource_id") ++ "'")
          :: validate_resource_instance (.objV (jobj [("resource_id", .strV "axe")])) [] [] [] :=
  c1_resource_mismatch_still_recurses (jobj [("resource_id", .strV "axe")]) "sword" [] [] []
    (by decide) (by decide)

/-- C2: the value `null` is accepted at any position against every Type
Descriptor — array, resource or primitive — with no error and no further
checks. -/
theorem c2_null_always_valid (t : StatType) (schema : Schema)
    (errors : List LocatedError) (path : List String) :
    validate_value .null t schema errors path = errors := rfl

/-- C3: a document whose non-empty `resource_id` is absent from the registry
yields exactly one error — the unknown-`resource_id` error under the
identity segment — with no statistic-level checks, and a run containing that
document simply carries that one error into the validation of the remaining
documents. -/
theorem c3_unknown_resource_id_truncates_node_only (fields : JObj) (rid : String)
    (schema : Schema) (errors : List LocatedError) (path : List String)
    (docs : List JValue)
    (hrid : jget fields "resource_id" = some (.strV rid)) (hempty : rid ≠ "")
    (hky : dget schema rid = none) :
    validate_resource_instance (.objV fields) schema errors path
      = errors ++ [LocatedError.mk (path ++ ["resource_id='" ++ rid ++ "'"])
          "Unknown resource_id (no stats.rpgs found)"]
    ∧ validate_run (.objV fields :: docs) schema errors
      = validate_run docs schema
          (errors ++ [LocatedError.mk ["resource_id='" ++ rid ++ "'"]
            "Unknown resource_id (no stats.rpgs found)"]) := by
  constructor
  · rw [validate_resource_instance_unknown_eq fields rid schema errors path hrid hempty hky]
    rfl
  · show validate_run docs schema (validate_resource_instance (.objV fields) schema errors []) = _
    rw [validate_resource_instance_unknown_eq fields rid schema errors [] hrid hempty hky]
    rfl

/-- C3 witness: a document with `resource_id` `"ghost"` against an empty
registry, followed by one further (empty-object) document in the run. -/
theorem c3_unknown_resource_id_truncates_node_only_witness :
    validate_resource_instance (.objV (jobj [("resource_id", .strV "ghost")])) [] [] []
      = [] ++ [LocatedError.mk ["resource_id='ghost'"]
          "Unknown resource_id (no stats.rpgs found)"]
    ∧ validate_run [.objV (jobj [("resource_id", .strV "ghost")]), .objV (jobj [])] [] []
      = validate_run [.objV (jobj [])] []
          ([] ++ [LocatedError.mk ["resource_id='ghost'"]
            "Unknown resource_id (no stats.rpgs found)"]) :=
  c3_unknown_resource_id_truncates_node_only (jobj [("resource_id", .strV "ghost")])
    "ghost" [] [] [] [.objV (jobj [])] rfl (by decide) rfl

/-- C4: against a statistic declared `integer`, a boolean yields exactly one
type-mismatch error at the statistic's `.value` path while any non-boolean
numeric value (int or float) yields none; on the document
`{resource_id: orc, stats: {hp: {value: true}}}` with schema `{hp: integer}`
the whole validation emits exactly the one error at `stats.hp.value`. -/
theorem c4_integer_rejects_bool_accepts_numbers :
    (∀ (b : Bool) (schema : Schema) (errors : List LocatedError) (path : List String),
      validate_value (.boolV b) (parse_type "integer") schema errors path
        = errors ++ [LocatedError.mk path "Expected number, got bool"])
    ∧ (∀ (n : Int) (schema : Schema) (errors : List LocatedError) (path : List String),
      validate_value (.intV n) (parse_type "integer") schema errors path = errors)
    ∧ (∀ (q : Rat) (schema : Schema) (errors : List LocatedError) (path : List String),
      validate_value (.floatV q) (parse_type "integer") schema errors path = errors)
    ∧ validate_resource_instance
        (.objV (jobj [("resource_id", .strV "orc"),
          ("stats", .objV (jobj [("hp", .objV (jobj [("value", .boolV true)]))]))]))
        [("orc", [("hp", parse_type "integer")])] [] []
      = [LocatedError.mk ["resource_id='orc'", "stats.hp.value"] "Expected number, got bool"] := by
  refine ⟨fun b schema errors path => rfl, fun n schema errors path => rfl,
    fun q schema errors path => rfl, by decide⟩

/-- C5 counterexample: `resource<>` does parse to an empty-string
resource-kind, but the empty constraint is never compared against the nested
`resource_id`: a nested resource with `resource_id` `"orc"` (which differs
from `""`) validates with NO mismatch error at all, refuting "a mismatch
error for every nested resource". -/
theorem c5_empty_constraint_counterexample :
    parse_type "resource<>" = StatType.mk "resource" false (some "")
    ∧ validate_value
        (.objV (jobj [("resource_id", .strV "orc"), ("stats", .objV (jobj []))]))
        (parse_type "resource<>") [("orc", [])] [] []
      = [] := by
  exact ⟨rfl, by decide⟩

/-- C5 amended: parsing `resource<>` yields kind Resource with
`resource_kind` the empty string, but during validation the empty-string
constraint is skipped (Python's truthiness test `if expected and ...` is
false for `""`), so it acts as "no constraint": no mismatch error is ever
emitted and checking proceeds directly to the full document validation of
the nested object. -/
theorem c5_empty_constraint_is_no_constraint :
    parse_type "resource<>" = StatType.mk "resource" false (some "")
    ∧ ∀ (fields : JObj) (schema : Schema) (errors : List LocatedError) (path : List String),
      validate_value (.objV fields) (parse_type "resource<>") schema errors path
        = validate_resource_instance (.objV fields) schema errors path := by
  refine ⟨rfl, ?_⟩
  intro fields schema errors path
  rw [show parse_type "resource<>" = StatType.mk "resource" false (some "") from rfl]
  rw [validate_value_resource_eq]
  simp

/-- C6: a type token ending in the two-character array marker parses with
`is_array` set, and the derived element type clears the array flag while
keeping the kind and the resource constraint; derivation builds a fresh
descriptor (`StatType` is immutable — `element_type` is a pure function of
the original, which is unchanged). -/
theorem c6_array_marker_and_element_type (T : String) (h : pyEndsWith T "[]" = true) :
    (parse_type T).is_array = true
    ∧ (parse_type T).element_type.is_array = false
    ∧ (parse_type T).element_type.kind = (parse_type T).kind
    ∧ (parse_type T).element_type.resource_type = (parse_type T).resource_type := by
  have harr : (parse_type T).is_array = pyEndsWith T "[]" := by
    simp only [parse_type]
    split_ifs <;> rfl
  exact ⟨by rw [harr, h], rfl, rfl, rfl⟩

/-- C6 witness: the token `integer[]`. -/
theorem c6_array_marker_and_element_type_witness :
    (parse_type "integer[]").is_array = true
    ∧ (parse_type "integer[]").element_type.is_array = false
    ∧ (parse_type "integer[]").element_type.kind = (parse_type "integer[]").kind
    ∧ (parse_type "integer[]").element_type.resource_type
        = (parse_type "integer[]").resource_type :=
  c6_array_marker_and_element_type "integer[]" (by decide)

/-- C7 counterexample: the stripped line `base integer hp (0)` does NOT
match the claimed pattern — identifier followed IMMEDIATELY by an opening
parenthesis, the spec-worded `matchBaseStatSpecImmediate` — yet the compiler
produces a schema entry from it, because the source's regex allows
whitespace (`\s*`) between the identifier and the parenthesis. -/
theorem c7_immediate_paren_counterexample :
    matchBaseStatSpecImmediate (pyStrip "base integer hp (0)") = none
    ∧ parse_stats_file ["base integer hp (0)"]
      = [("hp", StatType.mk "integer" false none)] := by
  exact ⟨by decide, by decide⟩

/-- C7 amended: the compiler produces an entry exactly from lines that
(after stripping) begin with `base ` and match `BASE_STAT_PATTERN` —
keyword, whitespace, non-whitespace type token, whitespace, an identifier of
letters/digits/underscore, then an opening parenthesis after OPTIONAL
whitespace; all other lines are silently skipped, and a later declaration of
the same statistic name overwrites an earlier one. -/
theorem c7_compiler_line_behavior :
    (∀ (stats : List (String × StatType)) (line : String),
      (¬ pyStartsWith (pyStrip line) "base " = true
        ∨ matchBaseStat (pyStrip line) = none) →
      parse_stats_line stats line = stats)
    ∧ (∀ (stats : List (String × StatType)) (line tok sname : String),
      pyStartsWith (pyStrip line) "base " = true →
      matchBaseStat (pyStrip line) = some (tok, sname) →
      parse_stats_line stats line = dset stats sname (parse_type tok))
    ∧ (∀ (stats : List (String × StatType)) (sname : String) (t : StatType),
      dget (dset stats sname t) sname = some t) := by
  refine ⟨?_, ?_, fun stats sname t => dget_dset stats sname t⟩
  · intro stats line h
    rcases h with h | h
    · simp [parse_stats_line, h]
    · simp [parse_stats_line, h]
  · intro stats line tok sname h1 h2
    simp [parse_stats_line, h1, h2]

/-- C7 witness: a non-matching line is skipped, a matching line produces the
entry, and a later `hp` declaration overwrites an earlier one. -/
theorem c7_compiler_line_behavior_witness :
    parse_stats_line [] "junk line" = []
    ∧ parse_stats_line [] "base integer hp(0)" = dset [] "hp" (parse_type "integer")
    ∧ dget (dset [("hp", parse_type "integer")] "hp" (parse_type "string")) "hp"
        = some (parse_type "string") :=
  ⟨c7_compiler_line_behavior.1 [] "junk line" (Or.inl (by decide)),
   c7_compiler_line_behavior.2.1 [] "base integer hp(0)" "integer" "hp"
     (by decide) (by decide),
   c7_compiler_line_behavior.2.2 [("hp", parse_type "integer")] "hp" (parse_type "string")⟩

/-- C8: the explicit fast path that skips a `null` element when the element
kind is Resource is outcome-equivalent to the generic null rule: for every
element list, index, element descriptor, registry, accumulator and path, the
source's element loop and the variant that runs the generic value check on
every element produce exactly the same errors. -/
theorem c8_null_fast_path_equivalent (items : JArr) (idx : Nat) (t : StatType)
    (schema : Schema) (errors : List LocatedError) (path : List String) :
    validate_elements items idx t schema errors path
      = validate_elements_nofast items idx t schema errors path :=
  validate_elements_eq_nofast items idx t schema errors path

/-- C9: validation is pure state passing on the error list alone: both entry
points of the engine only append newly found errors to the caller's list —
the result extends the incoming accumulator with the errors computed from
the (read-only) document and registry arguments. -/
theorem c9_validation_only_appends :
    (∀ (doc : JValue) (schema : Schema) (errors : List LocatedError) (path : List String),
      validate_resource_instance doc schema errors path
        = errors ++ validate_resource_instance doc schema [] path)
    ∧ (∀ (v : JValue) (t : StatType) (schema : Schema)
        (errors : List LocatedError) (path : List String),
      validate_value v t schema errors path = errors ++ validate_value v t schema [] path) :=
  ⟨validate_resource_instance_append, validate_value_append⟩

/-- C10: value checking for kind Integer does not require integrality —
every non-boolean numeric value, ints and floats alike, including the
non-integral float 3/2 (= 1.5), passes a statistic declared `integer`
without error. -/
theorem c10_integer_accepts_non_integral :
    (∀ (n : Int) (schema : Schema) (errors : List LocatedError) (path : List String),
      validate_value (.intV n) (parse_type "integer") schema errors path = errors)
    ∧ (∀ (q : Rat) (schema : Schema) (errors : List LocatedError) (path : List String),
      validate_value (.floatV q) (parse_type "integer") schema errors path = errors)
    ∧ (∀ (schema : Schema) (errors : List LocatedError) (path : List String),
      validate_value (.floatV ((3 : Rat) / 2)) (parse_type "integer") schema errors path
        = errors) :=
  ⟨fun n schema errors path => rfl, fun q schema errors path => rfl,
   fun schema errors path => rfl⟩
